import Mathlib

/-!
Verification of the money-transfer backend's quoting engine, fee resolver,
exchange-rate lookup, transaction status state machine, expiry monitor and
websocket notification fan-out, as a shallow embedding in Lean 4.

Monetary quantities are modelled as exact rationals (`ℚ`); Python's
`Decimal` arithmetic on these programs is exact except at explicit
`quantize` calls, which are modelled by `quant2` below.  Database queries
are modelled as filters over an explicit list of rows, and SQLAlchemy's
`scalar_one_or_none` as a partial extraction that errors on multiple rows.
Wall-clock instants are rationals counting seconds.
-/

namespace MoneyTransfer

/-- Python `Decimal` ROUND_HALF_UP to an integer: round to the nearest
integer, ties away from zero. -/
def roundHalfUpZ (x : ℚ) : ℤ :=
  if 0 ≤ x then ⌊x + 1/2⌋ else -⌊-x + 1/2⌋

/-- Python `value.quantize(Decimal("0.01"), rounding=ROUND_HALF_UP)`:
quantization to two decimal places, half away from zero. -/
def quant2 (x : ℚ) : ℚ :=
  (roundHalfUpZ (100 * x) : ℚ) / 100

/-- Result tuple of `calculate_transfer_amounts`
(`src/api/endpoints/v1/transaction.py`). -/
structure TransferAmounts where
  sender_amount : ℚ
  receiver_amount : ℚ
  total_to_pay : ℚ
  fee_value : ℚ
deriving DecidableEq, Repr

/-- Embedding of `calculate_transfer_amounts` from
`src/api/endpoints/v1/transaction.py` (lines 330-391), with
`HUNDRED = Decimal("100")` and `scale = DEFAULT_SCALE = Decimal("0.01")`. -/
def calculate_transfer_amounts (amount exchange_rate fee_percent : ℚ)
    (include_fee : Bool) : TransferAmounts :=
  let fee_value := quant2 (amount * fee_percent / 100)
  if include_fee then
    let sender_amount := amount
    let amount_to_convert := quant2 (amount - fee_value)
    let receiver_amount := quant2 (amount_to_convert * exchange_rate)
    let total_to_pay := sender_amount
    ⟨sender_amount, receiver_amount, total_to_pay, fee_value⟩
  else
    let sender_amount := amount
    let receiver_amount := quant2 (amount * exchange_rate)
    let total_to_pay := quant2 (amount + fee_value)
    ⟨sender_amount, receiver_amount, total_to_pay, fee_value⟩

/-- The spec's quote formulas, stated verbatim from the specification text
(§4.3 / §8) for comparison with the source embedding: with
`include_fee=false`, `sender = amount`, `fee = round(amount*fee%/100)`,
`receiver = round(amount*rate)`, `total = round(amount+fee)`; with
`include_fee=true`, `sender = total = amount`,
`receiver = round(round(amount-fee)*rate)`. -/
def specTransferAmounts (amount rate feePct : ℚ) (include_fee : Bool) :
    TransferAmounts :=
  let fee := quant2 (amount * feePct / 100)
  if include_fee then
    ⟨amount, quant2 (quant2 (amount - fee) * rate), amount, fee⟩
  else
    ⟨amount, quant2 (amount * rate), quant2 (amount + fee), fee⟩

/-! ### Admin transaction status state machine
(`src/api/endpoints/v1/admin_transactions.py`, lines 21-117)

The endpoint operates on the transaction-status vocabulary of the alembic
enum (`FUNDS_DEPOSITED`, `IN_PROGRESS`, `COMPLETED`, `CANCELLED`,
`EXPIRED`) used throughout the admin route and its schemas. -/

/-- Transaction statuses as used by the admin status-transition route. -/
inductive TStatus
  | FUNDS_DEPOSITED
  | IN_PROGRESS
  | COMPLETED
  | CANCELLED
  | EXPIRED
deriving DecidableEq, Repr

/-- The fixed transition table `VALID_TRANSITIONS` of
`src/api/endpoints/v1/admin_transactions.py`; statuses absent from the
dict get the empty allowed-set via `.get(old_status, set())`. -/
def VALID_TRANSITIONS : TStatus → List TStatus
  | .FUNDS_DEPOSITED => [.IN_PROGRESS, .CANCELLED]
  | .IN_PROGRESS => [.COMPLETED, .CANCELLED]
  | _ => []

/-- The fields of a stored `Transaction` row touched by the admin
status-transition route. Instants are rationals counting seconds. -/
structure AdminTxn where
  status : TStatus
  processed_at : Option ℚ := none
  processed_by_admin_id : Option ℕ := none
  completed_at : Option ℚ := none
  cancelled_at : Option ℚ := none
  expired_at : Option ℚ := none
deriving DecidableEq, Repr

/-- One `TransactionStatusHistory` audit row. -/
structure StatusHistoryRow where
  old_status : TStatus
  new_status : TStatus
  changed_by_admin_id : ℕ
  reason : Option String
deriving DecidableEq, Repr

/-- Embedding of the admin `update_transaction_status` endpoint
(`src/api/endpoints/v1/admin_transactions.py`): validate the transition
against `VALID_TRANSITIONS` (rejecting with a BadRequest that lists the
allowed target statuses, before any mutation), then set the entered
state's timestamp field, set the new status, and append one
`TransactionStatusHistory` row. Returns the stored transaction, the
appended history rows, and the HTTP outcome (the error carries the
allowed-set included in the 400 detail). -/
def update_transaction_status (txn : AdminTxn) (new_status : TStatus)
    (now : ℚ) (admin_id : ℕ) (reason : Option String) :
    AdminTxn × List StatusHistoryRow × Except (List TStatus) Unit :=
  let old_status := txn.status
  let allowed := VALID_TRANSITIONS old_status
  if new_status ∈ allowed then
    let txn1 : AdminTxn :=
      match new_status with
      | .IN_PROGRESS =>
          { txn with processed_at := some now,
                     processed_by_admin_id := some admin_id }
      | .COMPLETED => { txn with completed_at := some now }
      | .CANCELLED => { txn with cancelled_at := some now }
      | .EXPIRED => { txn with expired_at := some now }
      | .FUNDS_DEPOSITED => txn
    let txn2 := { txn1 with status := new_status }
    let history : StatusHistoryRow :=
      ⟨old_status, new_status, admin_id, reason⟩
    (txn2, [history], .ok ())
  else
    (txn, [], .error allowed)

/-- The timestamp field of `txn` that belongs to status `s`
(`processed_at` for IN_PROGRESS, `completed_at` for COMPLETED,
`cancelled_at` for CANCELLED, `expired_at` for EXPIRED). -/
def timestampField (txn : AdminTxn) : TStatus → Option ℚ
  | .IN_PROGRESS => txn.processed_at
  | .COMPLETED => txn.completed_at
  | .CANCELLED => txn.cancelled_at
  | .EXPIRED => txn.expired_at
  | .FUNDS_DEPOSITED => none

/-! ### Fee resolver and fee computation
(`src/repositories/fee.py`, `src/services/transfer_quote.py`,
`src/api/endpoints/v1/transaction.py`) -/

/-- A `fees` row (`src/db/models.py` / `src/models/fee.py`): corridor,
fee type stored as a VARCHAR, value, inclusive amount band (nullable
upper bound), active flag. Country ids are modelled as naturals. -/
structure Fee where
  from_country_id : ℕ
  to_country_id : ℕ
  fee_type : String
  fee_value : ℚ
  min_amount : ℚ
  max_amount : Option ℚ
  is_active : Bool
deriving DecidableEq, Repr

/-- Database-layer errors surfaced by SQLAlchemy result extraction. -/
inductive DbError
  | multipleResultsFound
deriving DecidableEq, Repr

/-- SQLAlchemy `Result.scalar_one_or_none()`: `none` on zero rows, the
row on exactly one, and `MultipleResultsFound` on more than one. -/
def scalar_one_or_none {α : Type} (rows : List α) :
    Except DbError (Option α) :=
  match rows with
  | [] => .ok none
  | [row] => .ok (some row)
  | _ => .error .multipleResultsFound

/-- The WHERE clause of `FeeRepository.get_applicable_fee`
(`src/repositories/fee.py`, lines 92-121): exact corridor, active rule,
`min_amount <= amount`, and `max_amount IS NULL OR max_amount >= amount`. -/
def applicable_fee_pred (from_country_id to_country_id : ℕ) (amount : ℚ)
    (f : Fee) : Bool :=
  f.from_country_id == from_country_id &&
  f.to_country_id == to_country_id &&
  f.is_active &&
  decide (f.min_amount ≤ amount) &&
  (f.max_amount == none || decide (amount ≤ f.max_amount.getD amount))

/-- Embedding of `FeeRepository.get_applicable_fee`: filter the fee
table by `applicable_fee_pred`, then `scalar_one_or_none`. -/
def get_applicable_fee (db : List Fee)
    (from_country_id to_country_id : ℕ) (amount : ℚ) :
    Except DbError (Option Fee) :=
  scalar_one_or_none
    (db.filter (applicable_fee_pred from_country_id to_country_id amount))

/-- Embedding of the endpoint helper `get_fee`
(`src/api/endpoints/v1/transaction.py`, lines 188-214): despite taking
`amount`, its WHERE clause filters only on the corridor pair — no
`is_active` and no amount-band condition — then `scalar_one_or_none`. -/
def get_fee (db : List Fee) (from_country_id to_country_id : ℕ)
    (_amount : ℚ) : Except DbError (Option Fee) :=
  scalar_one_or_none
    (db.filter fun f =>
      f.from_country_id == from_country_id &&
      f.to_country_id == to_country_id)

/-- Embedding of `TransferService._calculate_fees`
(`src/services/transfer_quote.py`, lines 130-190), parameterized by the
already-resolved applicable fee rule (the repository lookup result).
Returns `(fee_amount, fee_type, fee_percentage)`. With no applicable
rule it falls back to a default 2.5% percentage fee; otherwise it
dispatches on the stored `fee_type` string ("percentage", "fixed",
"tiered", with a zero-fee "NONE" fallback for any other string). -/
def calculate_fees (applicable_fee : Option Fee) (amount : ℚ) :
    ℚ × String × Option ℚ :=
  match applicable_fee with
  | none =>
      let default_fee_percentage : ℚ := 5/2
      (amount * default_fee_percentage / 100, "PERCENTAGE",
        some default_fee_percentage)
  | some f =>
      if f.fee_type = "percentage" then
        (amount * f.fee_value / 100, "PERCENTAGE", some f.fee_value)
      else if f.fee_type = "fixed" then
        (f.fee_value, "FIXED",
          if 0 < amount then some (f.fee_value / amount * 100) else none)
      else if f.fee_type = "tiered" then
        (f.fee_value, "TIERED",
          if 0 < amount then some (f.fee_value / amount * 100) else none)
      else
        (0, "NONE", none)

/-- Python-level runtime errors reached by the embedded code paths. -/
inductive PyError
  | attributeError
deriving DecidableEq, Repr

/-- Embedding of the line `fee_percent = fee.fee if fee else Decimal('0')`
in `perform_transfer_calculation` (`src/api/endpoints/v1/transaction.py`,
line 493). The `Fee` model defines no attribute `fee` (its value column
is `fee_value`), so whenever a fee row was found this attribute access
raises `AttributeError`; with no row the percent is 0. -/
def perform_fee_percent (fee : Option Fee) : Except PyError ℚ :=
  match fee with
  | some _ => .error .attributeError
  | none => .ok 0

/-- The fee amount produced by the `/quote`-endpoint calculation path
(`perform_transfer_calculation` feeding `calculate_transfer_amounts`):
the resolved percent (never a flat amount — the path does not dispatch
on the rule's fee type) is applied as
`quant2 (amount * fee_percent / 100)`. -/
def perform_fee_amount (fee : Option Fee) (amount : ℚ) :
    Except PyError ℚ :=
  (perform_fee_percent fee).map fun p => quant2 (amount * p / 100)

/-! ### Exchange-rate lookup
(`src/repositories/exchange_rate.py`, `src/api/endpoints/v1/transaction.py`) -/

/-- An `exchange_rates` row (`src/models/exchange_rate.py`): ordered
currency pair, rate, active flag. Currency ids are modelled as naturals.
(The `ex_rates` model used by the v1 endpoint has no active flag at all;
its rows embed with `is_active := true`.) -/
structure ExchangeRate where
  from_currency_id : ℕ
  to_currency_id : ℕ
  rate : ℚ
  is_active : Bool
deriving DecidableEq, Repr

/-- Embedding of `ExchangeRateRepository.get_by_currencies`
(`src/repositories/exchange_rate.py`, lines 21-44): the WHERE clause
filters on the exact ordered currency pair only — the `is_active` column
is not consulted — then `scalar_one_or_none`. -/
def get_by_currencies (db : List ExchangeRate)
    (from_currency_id to_currency_id : ℕ) :
    Except DbError (Option ExchangeRate) :=
  scalar_one_or_none
    (db.filter fun r =>
      r.from_currency_id == from_currency_id &&
      r.to_currency_id == to_currency_id)

/-- HTTP-level outcomes of endpoint handlers. -/
inductive HttpError
  | notFound
  | badRequest
deriving DecidableEq, Repr

/-- Embedding of the endpoint helper `get_exchange_rate`
(`src/api/endpoints/v1/transaction.py`, lines 149-185): look up the
exact ordered pair; raise 404 when no row matches. -/
def get_exchange_rate (db : List ExchangeRate)
    (from_currency_id to_currency_id : ℕ) :
    Except DbError (Except HttpError ExchangeRate) :=
  (get_by_currencies db from_currency_id to_currency_id).map fun rate? =>
    match rate? with
    | none => .error .notFound
    | some rate => .ok rate

/-! ### Self-service transaction endpoints
(`src/api/endpoints/v1/transaction.py`: `confirm_payment` lines
1185-1246, `get_transaction_status` lines 1310-1356)

These handlers compare the stored status against the literal strings
`"pending"` / `"processing"` / `"cancelled"`, so the status is modelled
as a string. -/

/-- Python `int()` on an exact quantity: truncation toward zero. -/
def pyInt (x : ℚ) : ℤ := if 0 ≤ x then ⌊x⌋ else -⌊-x⌋

/-- The fields of a stored transaction touched by the self-service
endpoints. `created_at`/`updated_at` are instants in seconds. -/
structure SelfTxn where
  sender_id : ℕ
  status : String
  created_at : ℚ
  updated_at : ℚ
deriving DecidableEq, Repr

/-- Embedding of `confirm_payment`: 404 when the transaction does not
belong to the caller; 400 when the status is not `"pending"`; when
pending but more than 15 minutes (900 s) have elapsed since
`created_at`, the handler persists `status = "cancelled"` and then
raises 400; otherwise it persists `status = "processing"` and succeeds.
Returns the stored transaction after the call and the HTTP outcome. -/
def confirm_payment (txn : SelfTxn) (current_user_id : ℕ) (now : ℚ) :
    SelfTxn × Except HttpError Unit :=
  if txn.sender_id ≠ current_user_id then (txn, .error .notFound)
  else if txn.status ≠ "pending" then (txn, .error .badRequest)
  else
    let elapsed_time := now - txn.created_at
    if 900 < elapsed_time then
      ({ txn with status := "cancelled", updated_at := now },
        .error .badRequest)
    else
      ({ txn with status := "processing", updated_at := now }, .ok ())

/-- The JSON body returned by the status-polling read. -/
structure StatusView where
  status : String
  elapsed_seconds : ℤ
  remaining_seconds : ℤ
  is_expired : Bool
deriving DecidableEq, Repr

/-- Embedding of `get_transaction_status`: 404 when not owned by the
caller; computes `elapsed = now - created_at` and
`is_expired = (elapsed > 15 min)`; when expired and still `"pending"`,
persists `status = "cancelled"` before answering; reports the (possibly
updated) status, `int(elapsed.total_seconds())` and
`remaining_seconds = max(0, 900 - elapsed_seconds)`. -/
def get_transaction_status (txn : SelfTxn) (current_user_id : ℕ)
    (now : ℚ) : SelfTxn × Except HttpError StatusView :=
  if txn.sender_id ≠ current_user_id then (txn, .error .notFound)
  else
    let elapsed_time := now - txn.created_at
    let is_expired := decide (900 < elapsed_time)
    let txn1 :=
      if is_expired && (txn.status == "pending") then
        { txn with status := "cancelled", updated_at := now }
      else txn
    let remaining_seconds := max 0 (900 - pyInt elapsed_time)
    (txn1, .ok ⟨txn1.status, pyInt elapsed_time, remaining_seconds,
      is_expired⟩)

/-! ### WebSocket connection manager
(`src/core/websocket_manager.py`) -/

/-- A live duplex connection; `healthy` says whether `send_json` on it
succeeds (an unhealthy connection's send raises). -/
structure Conn where
  cid : ℕ
  healthy : Bool
deriving DecidableEq, Repr

/-- The in-memory registry `{identity: [WebSocket, ...]}`, modelled as
an association list. -/
abbrev Registry := List (String × List Conn)

/-- Model of `websocket.send_json(data)`: delivers on a healthy
connection, raises on a dead one. -/
def send_json (c : Conn) : Except Unit Unit :=
  if c.healthy then .ok () else .error ()

/-- Python `dict.get(identity, [])` on the registry. -/
def registry_get (reg : Registry) (uid : String) : List Conn :=
  ((reg.find? fun p => p.1 == uid).map Prod.snd).getD []

/-- Every connection stored under `uid`, across entries. On a genuine
dict (unique keys) this coincides with `registry_get`. -/
def registry_conns (reg : Registry) (uid : String) : List Conn :=
  (reg.filter fun p => p.1 == uid).foldr (fun p acc => p.2 ++ acc) []

/-- Whether `send_json` on this connection succeeds (`try` branch). -/
def send_ok (c : Conn) : Bool :=
  match send_json c with
  | .ok _ => true
  | .error _ => false

/-- Whether `send_json` on this connection raises (`except` branch),
landing the connection in the `dead` list. -/
def send_failed (c : Conn) : Bool :=
  match send_json c with
  | .ok _ => false
  | .error _ => true

/-- Embedding of `ConnectionManager.disconnect_user` and
`disconnect_admin` (`src/core/websocket_manager.py`): remove the websocket from the
identity's connection list, deleting the key when the list becomes
empty; other identities are untouched. -/
def disconnect_conn : Registry → String → Conn → Registry
  | [], _, _ => []
  | p :: rest, uid, ws =>
      let acc := disconnect_conn rest uid ws
      if p.1 = uid then
        let remaining := p.2.filter fun w => w ≠ ws
        if remaining.isEmpty then acc else (p.1, remaining) :: acc
      else p :: acc

/-- Embedding of `ConnectionManager.notify_user` (lines 49-71): an empty
connection list returns immediately; otherwise the payload is sent to
each connection of the target identity in turn, each raising send is
caught and the dead connection collected, and the dead connections are
pruned afterwards. Returns the new registry and the connections that
received the payload; the function is total — by construction no send
failure propagates to the caller. -/
def notify_user (reg : Registry) (uid : String) : Registry × List Conn :=
  let connections := registry_get reg uid
  if connections.isEmpty then (reg, [])
  else
    let delivered := connections.filter fun c => send_ok c
    let dead := connections.filter fun c => send_failed c
    (dead.foldl (fun r w => disconnect_conn r uid w) reg, delivered)

/-- Embedding of `ConnectionManager.notify_all_admins` (lines 99-118):
an empty registry returns immediately; otherwise the payload is sent to
every connection of every registered admin identity, failing sends are
caught and collected as (admin, websocket) pairs, and those pairs are
pruned afterwards. Total: no send failure propagates. -/
def notify_all_admins (reg : Registry) : Registry × List Conn :=
  if reg.isEmpty then (reg, [])
  else
    let delivered := reg.foldl (fun acc p =>
      acc ++ p.2.filter fun c => send_ok c) []
    let dead_pairs := reg.foldl (fun acc p =>
      acc ++ (p.2.filter fun c => send_failed c).map fun w => (p.1, w)) []
    (dead_pairs.foldl (fun r pw => disconnect_conn r pw.1 pw.2) reg,
      delivered)

/-! ### Legacy v1 transaction-update endpoint
(`src/api/endpoints/v1/transaction.py`, lines 706-751) -/

/-- The transaction-status enum of `src/db/models.py` used by the legacy
v1 endpoint (values are non-empty French strings, so every member is
truthy in `if update_data.status:`). -/
inductive DbStatus
  | AWAITING_PAYMENT
  | COMPLETED
  | FOUNDS_DEPOSITED
  | EXPIRED
  | CANCELLED
deriving DecidableEq, Repr

/-- Embedding of the legacy `PATCH /transactions/{id}`
`update_transaction_status` handler: if a status is present in the
update payload it is persisted unconditionally (no transition-table
validation); a STATUS_CHANGE broadcast goes to all websocket
connections exactly when the stored status changed, and a push
notification additionally fires when the new status is COMPLETED.
Returns (stored status, broadcast sent?, push sent?). -/
def legacy_update_transaction_status (current : DbStatus)
    (requested : Option DbStatus) : DbStatus × Bool × Bool :=
  let previous_status := current
  let stored := match requested with
    | some s => s
    | none => previous_status
  let changed := previous_status != stored
  (stored, changed, changed && (stored == .COMPLETED))

/-- Concrete FIXED fee rule used in counterexamples: corridor (1, 2),
flat value 10, band `[0, ∞)`, active. -/
def feeFixed10 : Fee := ⟨1, 2, "fixed", 10, 0, none, true⟩

/-- Concrete TIERED fee rule: corridor (1, 2), stored tier value 7,
band `[100, 500]`, active. -/
def feeTiered7 : Fee := ⟨1, 2, "tiered", 7, 100, some 500, true⟩

/-- Concrete inactive fee rule whose band `[0, 50]` does not contain
the amount 100, used to refute C4. -/
def feeInactiveBand : Fee := ⟨1, 2, "percentage", 5, 0, some 50, false⟩

/-- Concrete inactive exchange-rate row for the ordered pair (1, 2). -/
def inactiveRate : ExchangeRate := ⟨1, 2, 655, false⟩

/-- Concrete exchange-rate row for the ordered pair (2, 1), used to show
the reverse direction is never inverted. -/
def reverseRate : ExchangeRate := ⟨2, 1, 655, true⟩

/-- A healthy demo websocket connection. -/
def demoConnLive : Conn := ⟨1, true⟩

/-- A dead demo websocket connection (its sends raise). -/
def demoConnDead : Conn := ⟨2, false⟩

/-- A demo registry with one identity holding one healthy and one dead
connection. -/
def demoReg : Registry := [("alice", [demoConnLive, demoConnDead])]

/-- A demo admin-route transaction sitting in the entry state. -/
def demoAdminTxn : AdminTxn := { status := .FUNDS_DEPOSITED }

/-- Helper: `scalar_one_or_none` returns `some a` exactly when the row
set is the singleton `[a]`. -/
theorem scalar_one_or_none_eq_some {α : Type} {rows : List α} {a : α}
    (h : scalar_one_or_none rows = .ok (some a)) : rows = [a] := by
  match rows with
  | [] => simp [scalar_one_or_none] at h
  | [x] => simp [scalar_one_or_none] at h; simp [h]
  | x :: y :: rest => simp [scalar_one_or_none] at h


end MoneyTransfer

namespace MoneyTransfer

/-- C1: for every positive amount, positive exchange rate and positive
fee percentage, `calculate_transfer_amounts` returns exactly the spec's
quantities, with ROUND_HALF_UP quantization to 0.01 at each intermediate
step, in both fee-inclusion modes. -/
theorem C1_calculate_transfer_amounts_matches_spec
    (amount rate feePct : ℚ) (include_fee : Bool)
    (hamount : 0 < amount) (hrate : 0 < rate) (hfee : 0 < feePct) :
    calculate_transfer_amounts amount rate feePct include_fee =
      specTransferAmounts amount rate feePct include_fee := by
  cases include_fee <;>
    simp [calculate_transfer_amounts, specTransferAmounts]

/-- Witness for C1 at the source's own worked example:
amount 100, rate 0.92, fee 5%, fee on top gives
(100.00, 92.00, 105.00, 5.00). -/
theorem C1_witness :
    (0 : ℚ) < 100 ∧ (0 : ℚ) < 92/100 ∧ (0 : ℚ) < 5 ∧
    calculate_transfer_amounts 100 (92/100) 5 false =
      specTransferAmounts 100 (92/100) 5 false ∧
    calculate_transfer_amounts 100 (92/100) 5 false =
      ⟨100, 92, 105, 5⟩ :=
  ⟨by norm_num, by norm_num, by norm_num,
   C1_calculate_transfer_amounts_matches_spec 100 (92/100) 5 false
     (by norm_num) (by norm_num) (by norm_num),
   by norm_num [calculate_transfer_amounts, quant2, roundHalfUpZ,
     TransferAmounts.mk.injEq]⟩

/-- C2: the admin status-transition operation accepts a change iff
(current, new) is in the fixed table FUNDS_DEPOSITED → {IN_PROGRESS,
CANCELLED}, IN_PROGRESS → {COMPLETED, CANCELLED} (terminal states
COMPLETED/CANCELLED/EXPIRED admit no outgoing transition); on rejection
it returns BadRequest listing the allowed target statuses and leaves the
stored transaction unchanged with no history appended; on acceptance it
sets the entered state's timestamp field and appends exactly one
`TransactionStatusHistory` row recording old status, new status, the
acting admin and the optional reason. -/
theorem C2_admin_status_transition
    (txn : AdminTxn) (ns : TStatus) (now : ℚ) (aid : ℕ)
    (r : Option String) :
    (VALID_TRANSITIONS .FUNDS_DEPOSITED = [.IN_PROGRESS, .CANCELLED] ∧
     VALID_TRANSITIONS .IN_PROGRESS = [.COMPLETED, .CANCELLED] ∧
     VALID_TRANSITIONS .COMPLETED = [] ∧
     VALID_TRANSITIONS .CANCELLED = [] ∧
     VALID_TRANSITIONS .EXPIRED = []) ∧
    ((update_transaction_status txn ns now aid r).2.2 = .ok () ↔
      ns ∈ VALID_TRANSITIONS txn.status) ∧
    (ns ∉ VALID_TRANSITIONS txn.status →
      update_transaction_status txn ns now aid r =
        (txn, [], .error (VALID_TRANSITIONS txn.status))) ∧
    (ns ∈ VALID_TRANSITIONS txn.status →
      (update_transaction_status txn ns now aid r).1.status = ns ∧
      timestampField (update_transaction_status txn ns now aid r).1 ns =
        some now ∧
      (update_transaction_status txn ns now aid r).2.1 =
        [⟨txn.status, ns, aid, r⟩]) := by
  refine ⟨⟨rfl, rfl, rfl, rfl, rfl⟩, ?_, ?_, ?_⟩ <;>
    cases htxn : txn.status <;> cases ns <;>
      simp [update_transaction_status, VALID_TRANSITIONS, timestampField,
        htxn]

/-- Witness for C2 at the entry-state transaction `demoAdminTxn`: the
transition to IN_PROGRESS at time 5 by admin 42 is accepted, stores the
new status with `processed_at = 5` and one history row, while the
transition FUNDS_DEPOSITED → COMPLETED is rejected with the allowed-set
error and no mutation. -/
theorem C2_witness :
    (update_transaction_status demoAdminTxn .IN_PROGRESS 5 42
      (some "go")).1.status = .IN_PROGRESS ∧
    timestampField (update_transaction_status demoAdminTxn .IN_PROGRESS
      5 42 (some "go")).1 .IN_PROGRESS = some 5 ∧
    (update_transaction_status demoAdminTxn .IN_PROGRESS 5 42
      (some "go")).2.1 =
      [⟨demoAdminTxn.status, .IN_PROGRESS, 42, some "go"⟩] ∧
    update_transaction_status demoAdminTxn .COMPLETED 5 42 none =
      (demoAdminTxn, [], .error (VALID_TRANSITIONS demoAdminTxn.status))
    := by
  have h := C2_admin_status_transition demoAdminTxn .IN_PROGRESS 5 42
    (some "go")
  have h2 := C2_admin_status_transition demoAdminTxn .COMPLETED 5 42
    none
  have hmem : TStatus.IN_PROGRESS ∈
      VALID_TRANSITIONS demoAdminTxn.status := by
    simp [demoAdminTxn, VALID_TRANSITIONS]
  have hnmem : TStatus.COMPLETED ∉
      VALID_TRANSITIONS demoAdminTxn.status := by
    simp [demoAdminTxn, VALID_TRANSITIONS]
  obtain ⟨ha1, ha2, ha3⟩ := h.2.2.2 hmem
  exact ⟨ha1, ha2, ha3, h2.2.2.1 hnmem⟩

/-- C3 counterexample: for the FIXED rule `feeFixed10` (flat value 10)
and amount 200, the TransferService path does return the flat fee 10,
but the `/quote`-endpoint calculation path does not: it raises
`AttributeError` on `fee.fee` (the model's column is `fee_value`), so it
never yields the flat fee amount — refuting the claim that the per-type
computation holds "in both quoting paths". -/
theorem C3_counterexample :
    (calculate_fees (some feeFixed10) 200).1 = 10 ∧
    perform_fee_amount (some feeFixed10) 200 = .error .attributeError ∧
    perform_fee_amount (some feeFixed10) 200 ≠ .ok 10 := by
  refine ⟨by simp [calculate_fees, feeFixed10], rfl, by simp
    [perform_fee_amount, perform_fee_percent, Except.map]⟩

/-- C3 amended: in the TransferService quoting path
(`TransferService._calculate_fees`), the fee amount follows the matched
rule's type — FIXED yields the flat `fee_value`, PERCENTAGE yields
`amount * fee_value / 100`, TIERED yields the stored tier `fee_value`
as the final fee amount. The `/quote`-endpoint calculation path does
not dispatch on fee type: whenever a fee row is found it raises
`AttributeError` reading the nonexistent `fee` attribute. -/
theorem C3_fee_amount_by_type (f : Fee) (amount : ℚ) :
    (f.fee_type = "fixed" →
      (calculate_fees (some f) amount).1 = f.fee_value) ∧
    (f.fee_type = "percentage" →
      (calculate_fees (some f) amount).1 = amount * f.fee_value / 100) ∧
    (f.fee_type = "tiered" →
      (calculate_fees (some f) amount).1 = f.fee_value) ∧
    perform_fee_amount (some f) amount = .error .attributeError := by
  refine ⟨?_, ?_, ?_, rfl⟩ <;> intro h <;> simp [calculate_fees, h]

/-- Witness for C3's amended theorem at the TIERED rule `feeTiered7`
and amount 300: the fee amount is the stored tier value 7. -/
theorem C3_witness :
    feeTiered7.fee_type = "tiered" ∧
    (calculate_fees (some feeTiered7) 300).1 = feeTiered7.fee_value :=
  ⟨rfl, (C3_fee_amount_by_type feeTiered7 300).2.2.1 rfl⟩

/-- C4 counterexample: for the database holding the single rule
`feeInactiveBand` — inactive, band `[0, 50]` — and amount 100, the
endpoint fee lookup `get_fee` that feeds the `/quote` calculation
returns that rule even though it is inactive and its band does not
contain the amount (the repository lookup `get_applicable_fee` correctly
returns no rule) — refuting the claim that the fee lookup used for
quoting considers only active band-matching rules. -/
theorem C4_counterexample :
    get_fee [feeInactiveBand] 1 2 100 = .ok (some feeInactiveBand) ∧
    feeInactiveBand.is_active = false ∧
    feeInactiveBand.max_amount = some 50 ∧ ¬((100 : ℚ) ≤ 50) ∧
    get_applicable_fee [feeInactiveBand] 1 2 100 = .ok none := by
  refine ⟨rfl, rfl, rfl, by norm_num, ?_⟩
  simp [get_applicable_fee, applicable_fee_pred, feeInactiveBand,
    scalar_one_or_none]

/-- C4 amended: the repository lookup `get_applicable_fee` considers
only active fee rules for the exact (source, destination) pair whose
inclusive `[min_amount, max_amount]` band contains the amount (null
`max_amount` meaning unbounded above) and returns the unique such rule
(erroring rather than picking a first one when several match); the
endpoint helper `get_fee` used by the `/quote` calculation filters only
on the corridor pair, ignoring the active flag and the amount band. -/
theorem C4_fee_lookup (db : List Fee) (src dst : ℕ) (amount : ℚ)
    (f : Fee) :
    (applicable_fee_pred src dst amount f = true ↔
      (f.from_country_id = src ∧ f.to_country_id = dst ∧
       f.is_active = true ∧ f.min_amount ≤ amount ∧
       (f.max_amount = none ∨
         ∃ M, f.max_amount = some M ∧ amount ≤ M))) ∧
    (get_applicable_fee db src dst amount = .ok (some f) →
      f ∈ db ∧ applicable_fee_pred src dst amount f = true) ∧
    (get_fee db src dst amount = .ok (some f) →
      f ∈ db ∧ f.from_country_id = src ∧ f.to_country_id = dst) := by
  refine ⟨?_, ?_, ?_⟩
  · cases hM : f.max_amount <;>
      simp [applicable_fee_pred, hM, and_assoc]
  · intro h
    have hrows := scalar_one_or_none_eq_some h
    have hmem : f ∈ db.filter (applicable_fee_pred src dst amount) := by
      rw [hrows]; exact List.mem_singleton.mpr rfl
    exact ⟨(List.mem_filter.mp hmem).1, (List.mem_filter.mp hmem).2⟩
  · intro h
    have hrows := scalar_one_or_none_eq_some h
    have hmem : f ∈ db.filter (fun g =>
        g.from_country_id == src && g.to_country_id == dst) := by
      rw [hrows]; exact List.mem_singleton.mpr rfl
    have := (List.mem_filter.mp hmem).2
    simp only [Bool.and_eq_true, beq_iff_eq] at this
    exact ⟨(List.mem_filter.mp hmem).1, this.1, this.2⟩

/-- Witness for C4's amended theorem at the database `[feeTiered7]`,
corridor (1, 2), amount 300: the band `[100, 500]` contains 300 and the
rule is active, so both directions of the characterization fire. -/
theorem C4_witness :
    feeTiered7 ∈ [feeTiered7] ∧
    applicable_fee_pred 1 2 300 feeTiered7 = true := by
  have hq : get_applicable_fee [feeTiered7] 1 2 300 =
      .ok (some feeTiered7) := by
    norm_num [get_applicable_fee, applicable_fee_pred, feeTiered7,
      scalar_one_or_none, List.filter]
  exact (C4_fee_lookup [feeTiered7] 1 2 300 feeTiered7).2.1 hq

/-- C5 counterexample: with no applicable fee rule, no
NotFound/NoBandMatch is signalled — the TransferService fee calculation
succeeds with the default 2.5% percentage fee (here 2.5 on amount 100)
and the `/quote`-endpoint path succeeds with a zero fee — refuting the
claim that a quote with no applicable fee rule fails with an error. -/
theorem C5_counterexample :
    calculate_fees none 100 = (100 * (5/2) / 100, "PERCENTAGE",
      some (5/2)) ∧
    (calculate_fees none 100).1 = 5/2 ∧
    perform_fee_amount none 100 = .ok 0 := by
  refine ⟨rfl, by norm_num [calculate_fees], ?_⟩
  simp [perform_fee_amount, perform_fee_percent, Except.map, quant2,
    roundHalfUpZ]
  norm_num

/-- C5 amended: when no fee rule applies, the fee resolver does not
signal NotFound or NoBandMatch; the TransferService path falls back to a
default 2.5% percentage fee and the `/quote`-endpoint path proceeds with
a zero fee, so the quote succeeds. -/
theorem C5_no_rule_defaults (amount : ℚ) :
    calculate_fees none amount =
      (amount * (5/2) / 100, "PERCENTAGE", some (5/2)) ∧
    perform_fee_amount none amount = .ok 0 := by
  refine ⟨rfl, ?_⟩
  simp [perform_fee_amount, perform_fee_percent, Except.map, quant2,
    roundHalfUpZ]
  norm_num

/-- C6 counterexample: the database holding the single inactive rate row
`inactiveRate` for the ordered pair (1, 2) — the lookup returns that row
even though it is not active, refuting the claim that a rate is returned
only when an ACTIVE rate row exists. -/
theorem C6_counterexample :
    get_by_currencies [inactiveRate] 1 2 = .ok (some inactiveRate) ∧
    inactiveRate.is_active = false := ⟨rfl, rfl⟩

/-- C6 amended: the exchange-rate lookup returns a rate only when a rate
row (active or not — the active flag is not consulted) exists for
exactly the requested ordered pair, and signals NotFound otherwise; a
configured reverse rate B→A is never inverted to answer a lookup of
A→B. -/
theorem C6_rate_lookup (db : List ExchangeRate) (a b : ℕ)
    (r : ExchangeRate) :
    (get_by_currencies db a b = .ok (some r) →
      r ∈ db ∧ r.from_currency_id = a ∧ r.to_currency_id = b) ∧
    ((∀ x ∈ db, ¬(x.from_currency_id = a ∧ x.to_currency_id = b)) →
      get_by_currencies db a b = .ok none ∧
      get_exchange_rate db a b = .ok (.error .notFound)) := by
  constructor
  · intro h
    have hrows := scalar_one_or_none_eq_some h
    have hmem : r ∈ db.filter (fun x =>
        x.from_currency_id == a && x.to_currency_id == b) := by
      rw [hrows]; exact List.mem_singleton.mpr rfl
    have := (List.mem_filter.mp hmem).2
    simp only [Bool.and_eq_true, beq_iff_eq] at this
    exact ⟨(List.mem_filter.mp hmem).1, this.1, this.2⟩
  · intro h
    have hfil : db.filter (fun x =>
        x.from_currency_id == a && x.to_currency_id == b) = [] := by
      rw [List.filter_eq_nil_iff]
      intro x hx
      simp only [Bool.and_eq_true, beq_iff_eq, not_and]
      intro h1 h2
      exact h x hx ⟨h1, h2⟩
    constructor
    · simp [get_by_currencies, hfil, scalar_one_or_none]
    · simp [get_exchange_rate, get_by_currencies, hfil,
        scalar_one_or_none, Except.map]

/-- C7: confirm-payment succeeds (moving "pending" to "processing")
iff the transaction is the caller's, the status is pending, and at most
15 minutes (900 s) have elapsed since `created_at`; when pending but
expired, the call fails with BadRequest AND persists
`status = "cancelled"` as a side effect. -/
theorem C7_confirm_payment (txn : SelfTxn) (uid : ℕ) (now : ℚ) :
    ((confirm_payment txn uid now).2 = .ok () ↔
      (txn.sender_id = uid ∧ txn.status = "pending" ∧
        now - txn.created_at ≤ 900)) ∧
    ((confirm_payment txn uid now).2 = .ok () →
      (confirm_payment txn uid now).1.status = "processing") ∧
    (txn.sender_id = uid → txn.status = "pending" →
      900 < now - txn.created_at →
      (confirm_payment txn uid now).2 = .error .badRequest ∧
      (confirm_payment txn uid now).1.status = "cancelled") := by
  by_cases h1 : txn.sender_id = uid
  · by_cases h2 : txn.status = "pending"
    · by_cases h3 : (900 : ℚ) < now - txn.created_at
      · simp [confirm_payment, h1, h2, h3, not_le.mpr h3]
      · simp [confirm_payment, h1, h2, h3, not_lt.mp h3]
    · simp [confirm_payment, h1, h2]
  · simp [confirm_payment, h1]

/-- Witness for C7 at `txn = ⟨7, "pending", 0, 0⟩`, caller 7: at
`now = 900` (exactly 15 minutes) the call succeeds and stores
"processing"; at `now = 901` it fails with BadRequest and stores
"cancelled". -/
theorem C7_witness :
    (confirm_payment ⟨7, "pending", 0, 0⟩ 7 900).2 = .ok () ∧
    (confirm_payment ⟨7, "pending", 0, 0⟩ 7 900).1.status =
      "processing" ∧
    (confirm_payment ⟨7, "pending", 0, 0⟩ 7 901).2 =
      .error .badRequest ∧
    (confirm_payment ⟨7, "pending", 0, 0⟩ 7 901).1.status =
      "cancelled" := by
  have hok : (confirm_payment ⟨7, "pending", 0, 0⟩ 7 900).2 = .ok () :=
    (C7_confirm_payment ⟨7, "pending", 0, 0⟩ 7 900).1.mpr
      ⟨rfl, rfl, by norm_num⟩
  have hexp := (C7_confirm_payment ⟨7, "pending", 0, 0⟩ 7 901).2.2
    rfl rfl (by norm_num)
  exact ⟨hok,
    (C7_confirm_payment ⟨7, "pending", 0, 0⟩ 7 900).2.1 hok,
    hexp.1, hexp.2⟩

/-- C8: for an owned transaction, the status-polling read reports
`is_expired = (elapsed > 900 s)` and
`remaining_seconds = max(0, 900 - elapsed_seconds)` where
`elapsed_seconds = int(now - created_at)`; when the transaction is still
pending and expired, the read persists `status = "cancelled"` before
returning, and every subsequent read (at any `now' ≥ now`) returns the
cancelled status with `is_expired = true` and `remaining_seconds = 0`. -/
theorem C8_status_polling (txn : SelfTxn) (uid : ℕ) (now now' : ℚ)
    (howner : txn.sender_id = uid) :
    (get_transaction_status txn uid now).2 =
      .ok ⟨(get_transaction_status txn uid now).1.status,
           pyInt (now - txn.created_at),
           max 0 (900 - pyInt (now - txn.created_at)),
           decide (900 < now - txn.created_at)⟩ ∧
    (txn.status = "pending" → 900 < now - txn.created_at →
      (get_transaction_status txn uid now).1.status = "cancelled" ∧
      (now ≤ now' →
        (get_transaction_status
            (get_transaction_status txn uid now).1 uid now').2 =
          .ok ⟨"cancelled", pyInt (now' - txn.created_at), 0, true⟩)) := by
  constructor
  · by_cases hexp : (900 : ℚ) < now - txn.created_at
    · by_cases hpend : txn.status = "pending"
      · simp [get_transaction_status, howner, hexp, hpend]
      · simp [get_transaction_status, howner, hexp, hpend]
    · simp [get_transaction_status, howner, hexp]
  · intro hpend hexp
    have hcanc : (get_transaction_status txn uid now).1 =
        { txn with status := "cancelled", updated_at := now } := by
      simp [get_transaction_status, howner, hexp, hpend]
    refine ⟨by rw [hcanc], fun hle => ?_⟩
    have hexp' : (900 : ℚ) < now' - txn.created_at :=
      lt_of_lt_of_le hexp (by linarith)
    have hpos : (0 : ℚ) ≤ now' - txn.created_at := by linarith
    have hfloor : (900 : ℤ) ≤ ⌊now' - txn.created_at⌋ :=
      Int.le_floor.mpr (by exact_mod_cast hexp'.le)
    have hrem : max 0 (900 - pyInt (now' - txn.created_at)) = 0 := by
      rw [pyInt, if_pos hpos]
      omega
    rw [hcanc]
    simp [get_transaction_status, howner, hexp', hrem, pyInt, hpos]
    exact hfloor

/-- Witness for C8 at `txn = ⟨7, "pending", 0, 0⟩`, caller 7, first read
at `now = 901` (expired): the read persists "cancelled", and a second
read at `now' = 1000` reports status "cancelled", elapsed 1000,
remaining 0, expired. -/
theorem C8_witness :
    (get_transaction_status ⟨7, "pending", 0, 0⟩ 7 901).1.status =
      "cancelled" ∧
    (get_transaction_status
        (get_transaction_status ⟨7, "pending", 0, 0⟩ 7 901).1
        7 1000).2 =
      .ok ⟨"cancelled", pyInt 1000, 0, true⟩ := by
  have h := (C8_status_polling ⟨7, "pending", 0, 0⟩ 7 901 1000 rfl).2
    rfl (by norm_num)
  exact ⟨h.1, by simpa using h.2 (by norm_num)⟩

/-- Witness for C6's amended theorem: a database holding only the
reverse-direction rate (2, 1) answers the lookup of (1, 2) with
NotFound — the reverse rate is not inverted. -/
theorem C6_witness :
    (∀ x ∈ [reverseRate],
      ¬(x.from_currency_id = 1 ∧ x.to_currency_id = 2)) ∧
    get_by_currencies [reverseRate] 1 2 = .ok none ∧
    get_exchange_rate [reverseRate] 1 2 = .ok (.error .notFound) := by
  have h : ∀ x ∈ [reverseRate],
      ¬(x.from_currency_id = 1 ∧ x.to_currency_id = 2) := by
    intro x hx
    simp only [List.mem_singleton] at hx
    subst hx
    simp [reverseRate]
  exact ⟨h, (C6_rate_lookup [reverseRate] 1 2 reverseRate).2 h⟩

/-- A send succeeds exactly on healthy connections. -/
theorem send_ok_eq_healthy (c : Conn) : send_ok c = c.healthy := by
  cases h : c.healthy <;> simp [send_ok, send_json, h]

/-- A send raises exactly on unhealthy connections. -/
theorem send_failed_eq_not_healthy (c : Conn) :
    send_failed c = !c.healthy := by
  cases h : c.healthy <;> simp [send_failed, send_json, h]

/-- Unfolding of `registry_conns` over a cons cell. -/
theorem registry_conns_cons (p : String × List Conn) (l : Registry)
    (v : String) :
    registry_conns (p :: l) v =
      if p.1 = v then p.2 ++ registry_conns l v
      else registry_conns l v := by
  by_cases h : p.1 = v <;>
    simp [registry_conns, List.filter_cons, h]

/-- Pruning one websocket from one identity filters exactly that
identity's connection list and leaves every other identity's stored
connections unchanged. -/
theorem registry_conns_disconnect (reg : Registry) (u v : String)
    (ws : Conn) :
    registry_conns (disconnect_conn reg u ws) v =
      if u = v then (registry_conns reg v).filter (fun c => c ≠ ws)
      else registry_conns reg v := by
  induction reg with
  | nil =>
      by_cases huv : u = v
      · rw [if_pos huv]; rfl
      · rw [if_neg huv]; rfl
  | cons p rest ih =>
      have hstep : disconnect_conn (p :: rest) u ws =
          if p.1 = u then
            (if (p.2.filter fun w => w ≠ ws).isEmpty then
              disconnect_conn rest u ws
            else (p.1, p.2.filter fun w => w ≠ ws) ::
              disconnect_conn rest u ws)
          else p :: disconnect_conn rest u ws := rfl
      rw [hstep, registry_conns_cons]
      by_cases hu : p.1 = u
      · rw [if_pos hu]
        by_cases hre : (p.2.filter fun w => w ≠ ws) = []
        · rw [if_pos (List.isEmpty_iff.mpr hre), ih]
          by_cases huv : u = v
          · rw [if_pos huv, if_pos huv, if_pos (hu.trans huv),
              List.filter_append, hre, List.nil_append]
          · have hpv : ¬(p.1 = v) := fun h => huv (hu.symm.trans h)
            rw [if_neg huv, if_neg huv, if_neg hpv]
        · rw [if_neg (fun hcon => hre (List.isEmpty_iff.mp hcon)),
            registry_conns_cons, ih]
          by_cases huv : u = v
          · rw [if_pos huv, if_pos huv, if_pos (hu.trans huv),
              if_pos (hu.trans huv), List.filter_append]
          · have hpv : ¬(p.1 = v) := fun h => huv (hu.symm.trans h)
            rw [if_neg huv, if_neg huv, if_neg hpv, if_neg hpv]
      · rw [if_neg hu, registry_conns_cons, ih]
        by_cases huv : u = v
        · have hpv : ¬(p.1 = v) := fun h => hu (h.trans huv.symm)
          rw [if_pos huv, if_pos huv, if_neg hpv, if_neg hpv]
        · by_cases hpv : p.1 = v
          · rw [if_neg huv, if_neg huv, if_pos hpv]
          · rw [if_neg huv, if_neg huv, if_neg hpv]

/-- Folding the pruning step over a list of (identity, websocket) pairs
filters each identity's stored connections by all the pairs naming it. -/
theorem registry_conns_fold_disconnect (pairs : List (String × Conn))
    (reg : Registry) (v : String) :
    registry_conns
        (pairs.foldl (fun r pw => disconnect_conn r pw.1 pw.2) reg) v =
      (registry_conns reg v).filter
        (fun c => pairs.all fun pw => !(pw.1 == v && pw.2 == c)) := by
  induction pairs generalizing reg with
  | nil => simp
  | cons pw rest ih =>
      rw [List.foldl_cons, ih, registry_conns_disconnect]
      by_cases hv : pw.1 = v
      · rw [if_pos hv, List.filter_filter]
        apply List.filter_congr
        intro c _
        by_cases h : c = pw.2
        · simp [List.all_cons, hv, h]
        · simp [List.all_cons, hv, h, Ne.symm h]
      · rw [if_neg hv]
        apply List.filter_congr
        intro c _
        simp [hv]

/-- Left fold of list-append equals the flat map. -/
theorem foldl_append_flatMap {α β : Type} (f : α → List β) (l : List α)
    (init : List β) :
    l.foldl (fun acc a => acc ++ f a) init = init ++ l.flatMap f := by
  induction l generalizing init with
  | nil => simp
  | cons a t ih => simp [ih]

/-- The function `notify_user` delivers the payload to exactly the
healthy connections registered under the target identity. -/
theorem notify_user_delivered (reg : Registry) (uid : String) :
    (notify_user reg uid).2 =
      (registry_get reg uid).filter fun c => c.healthy := by
  by_cases hne : (registry_get reg uid).isEmpty
  · simp [notify_user, hne, List.isEmpty_iff.mp hne]
  · simp only [notify_user, hne, Bool.false_eq_true, if_false]
    exact List.filter_congr fun c _ => send_ok_eq_healthy c

/-- The function `notify_user` removes each failing connection of the
target identity from the registry. -/
theorem notify_user_prunes (reg : Registry) (uid : String) (c : Conn)
    (hc : c ∈ registry_get reg uid) (hdead : c.healthy = false) :
    c ∉ registry_conns (notify_user reg uid).1 uid := by
  have hne : ¬(registry_get reg uid).isEmpty := by
    intro h
    rw [List.isEmpty_iff.mp h] at hc
    exact absurd hc (List.not_mem_nil c)
  have hreg1 : (notify_user reg uid).1 =
      (((registry_get reg uid).filter fun c => send_failed c).map
          fun w => (uid, w)).foldl
        (fun r pw => disconnect_conn r pw.1 pw.2) reg := by
    simp only [notify_user, hne, Bool.false_eq_true, if_false,
      List.foldl_map]
  intro hmem
  rw [hreg1, registry_conns_fold_disconnect] at hmem
  have hpred := (List.mem_filter.mp hmem).2
  rw [List.all_eq_true] at hpred
  have hcd : (uid, c) ∈ ((registry_get reg uid).filter
      fun c => send_failed c).map fun w => (uid, w) :=
    List.mem_map.mpr ⟨c, List.mem_filter.mpr
      ⟨hc, by rw [send_failed_eq_not_healthy, hdead]; rfl⟩, rfl⟩
  have := hpred _ hcd
  simp at this

/-- The function `notify_user` leaves every other identity's
connections unchanged. -/
theorem notify_user_other (reg : Registry) (uid v : String)
    (hv : v ≠ uid) :
    registry_conns (notify_user reg uid).1 v = registry_conns reg v := by
  by_cases hne : (registry_get reg uid).isEmpty
  · simp [notify_user, hne]
  · have hreg1 : (notify_user reg uid).1 =
        (((registry_get reg uid).filter fun c => send_failed c).map
            fun w => (uid, w)).foldl
          (fun r pw => disconnect_conn r pw.1 pw.2) reg := by
      simp only [notify_user, hne, Bool.false_eq_true, if_false,
        List.foldl_map]
    rw [hreg1, registry_conns_fold_disconnect]
    apply List.filter_eq_self.mpr
    intro c _
    rw [List.all_eq_true]
    intro pw hpw
    obtain ⟨w, _, rfl⟩ := List.mem_map.mp hpw
    simp [Ne.symm hv]

/-- The function `notify_all_admins` delivers the payload to exactly
the healthy connections of every registered admin identity. -/
theorem notify_all_admins_delivered (reg : Registry) :
    (notify_all_admins reg).2 =
      reg.flatMap fun p => p.2.filter fun c => c.healthy := by
  by_cases hne : reg.isEmpty
  · simp [notify_all_admins, hne, List.isEmpty_iff.mp hne]
  · have : (notify_all_admins reg).2 =
        reg.flatMap fun p => p.2.filter fun c => send_ok c := by
      simp only [notify_all_admins, hne, Bool.false_eq_true, if_false,
        foldl_append_flatMap, List.nil_append]
    rw [this]
    congr 1
    funext p
    exact List.filter_congr fun c _ => send_ok_eq_healthy c

/-- The function `notify_all_admins` removes each failing admin
connection from the admin registry. -/
theorem notify_all_admins_prunes (reg : Registry)
    (p : String × List Conn) (c : Conn) (hp : p ∈ reg) (hc : c ∈ p.2)
    (hdead : c.healthy = false) :
    c ∉ registry_conns (notify_all_admins reg).1 p.1 := by
  have hne : ¬reg.isEmpty := by
    intro h
    rw [List.isEmpty_iff.mp h] at hp
    exact absurd hp (List.not_mem_nil p)
  have hreg1 : (notify_all_admins reg).1 =
      (reg.flatMap fun q => (q.2.filter fun c => send_failed c).map
          fun w => (q.1, w)).foldl
        (fun r pw => disconnect_conn r pw.1 pw.2) reg := by
    simp only [notify_all_admins, hne, Bool.false_eq_true, if_false,
      foldl_append_flatMap, List.nil_append]
  intro hmem
  rw [hreg1, registry_conns_fold_disconnect] at hmem
  have hpred := (List.mem_filter.mp hmem).2
  rw [List.all_eq_true] at hpred
  have hcd : (p.1, c) ∈ reg.flatMap fun q =>
      (q.2.filter fun c => send_failed c).map fun w => (q.1, w) :=
    List.mem_flatMap.mpr ⟨p, hp, List.mem_map.mpr ⟨c,
      List.mem_filter.mpr
        ⟨hc, by rw [send_failed_eq_not_healthy, hdead]; rfl⟩, rfl⟩⟩
  have := hpred _ hcd
  simp at this

/-- C9: `notify_user` delivers the event to every registered healthy
connection of the target identity and `notify_all_admins` to every
healthy connection of every admin identity; a raising send is caught,
exactly that connection is removed from the registry while other
identities' connections are untouched, and delivery to every other
connection still occurs. Both operations are total functions of the
registry (no exception propagates to the caller), so the state
transition that triggered the notification cannot fail because of
notification failure. -/
theorem C9_notification_fanout (ureg areg : Registry) (uid : String) :
    ((notify_user ureg uid).2 =
      (registry_get ureg uid).filter fun c => c.healthy) ∧
    (∀ c ∈ registry_get ureg uid, c.healthy = false →
      c ∉ registry_conns (notify_user ureg uid).1 uid) ∧
    (∀ v, v ≠ uid →
      registry_conns (notify_user ureg uid).1 v =
        registry_conns ureg v) ∧
    ((notify_all_admins areg).2 =
      areg.flatMap fun p => p.2.filter fun c => c.healthy) ∧
    (∀ p ∈ areg, ∀ c ∈ p.2, c.healthy = true →
      c ∈ (notify_all_admins areg).2) ∧
    (∀ p ∈ areg, ∀ c ∈ p.2, c.healthy = false →
      c ∉ registry_conns (notify_all_admins areg).1 p.1) :=
  ⟨notify_user_delivered ureg uid,
   fun c hc hdead => notify_user_prunes ureg uid c hc hdead,
   fun v hv => notify_user_other ureg uid v hv,
   notify_all_admins_delivered areg,
   fun p hp c hc hlive => by
     rw [notify_all_admins_delivered]
     exact List.mem_flatMap.mpr
       ⟨p, hp, List.mem_filter.mpr ⟨hc, hlive⟩⟩,
   fun p hp c hc hdead =>
     notify_all_admins_prunes areg p c hp hc hdead⟩

/-- Witness for C9 on the registry `{"alice": [live, dead]}`: the live
connection is delivered to, the dead one is pruned from the registry,
and the admin broadcast over the same registry delivers to the live
connection. -/
theorem C9_witness :
    (notify_user demoReg "alice").2 = [demoConnLive] ∧
    demoConnDead ∉
      registry_conns (notify_user demoReg "alice").1 "alice" ∧
    (notify_all_admins demoReg).2 = [demoConnLive] := by
  have h := C9_notification_fanout demoReg demoReg "alice"
  have hmem : demoConnDead ∈ registry_get demoReg "alice" := by
    simp [registry_get, demoReg, List.find?]
  refine ⟨?_, h.2.1 demoConnDead hmem rfl, ?_⟩
  · rw [h.1]
    simp [registry_get, demoReg, List.find?, demoConnLive, demoConnDead]
  · rw [h.2.2.2.1]
    simp [demoReg, demoConnLive, demoConnDead]

/-- C10: the legacy v1 transaction-update endpoint persists any
requested status over any current status — including out of the
terminal states COMPLETED/CANCELLED/EXPIRED — with no transition-table
validation (the operation cannot reject), and it broadcasts a
STATUS_CHANGE event exactly when the stored status actually changed. -/
theorem C10_legacy_update_unvalidated (current requested : DbStatus)
    (r : Option DbStatus) :
    ((legacy_update_transaction_status current (some requested)).1 =
      requested) ∧
    ((legacy_update_transaction_status current (some requested)).2.1 =
        true ↔ current ≠ requested) ∧
    ((legacy_update_transaction_status current r).1 =
      r.getD current) := by
  refine ⟨rfl, ?_, ?_⟩
  · simp [legacy_update_transaction_status]
  · cases r <;> rfl

end MoneyTransfer
